import Mathlib

/-!
Verification development for the `api-explorer` repository.

The core under verification is the cursor-based pagination/export engine,
which exists in two near-duplicate copies in the source:
`execute_manual_export` (src/module2_manual_export.py) and
`execute_bulk_export` (src/module3_bulk_export.py).

The embedding below translates those two Python loops.  A server response
(the Python value returned by `api_client.get_reviews`) is modelled by
Option Page: none models the falsy empty-dict result returned by
APIClient._fetch_cached on any HTTP or connection error, while some page
models a truthy dict, whose docs list may still be empty (the
empty-page branch).
A missing nextCursorMark (Python None) and the empty string are both
falsy in the source, so the cursor is modelled as a `String` with `""`
standing for "absent".

The transport is modelled as a function from the page counter (the ordinal
of the get_reviews call made by the loop) to a response; since the loop
issues its calls strictly sequentially, this subsumes any cursor-determined
server.
-/

namespace ApiExplorer

/-- One review document.  Python documents are dicts; the only field the
engine inspects is the id.  Here id none models a dict without an id key;
id some s models a dict carrying the key, where s may be the empty string
(present but falsy, hence never deduplicated). -/
structure Doc where
  id : Option String
  deriving Repr, DecidableEq

/-- One page-level API response body (a truthy `result` dict). -/
structure Page where
  docs : List Doc
  nextCursorMark : String
  deriving Repr, DecidableEq

/-- The transport: response to the n-th get_reviews call of the
pagination loop (none means transport failure, an empty result dict). -/
abbrev Transport := Nat → Option Page

/-- Termination reasons of a fetch run, following section 4.1 of the spec
plus the NO_DATA early return and the single-flight GUARD_BUSY rejection. -/
inductive Reason where
  | ERROR
  | EMPTY_PAGE
  | PREVIEW_LIMIT
  | NO_NEXT_CURSOR
  | CURSOR_STALLED
  | COMPLETE
  | SAFETY_LIMIT
  | NO_DATA
  | GUARD_BUSY
  deriving Repr, DecidableEq

/-- Result of one fetch run: accumulated documents (all_docs), final
page_count, termination reason, and the total number of page-fetch
transport calls issued during the run (loop calls plus the diagnostic
calls of the manual module). -/
structure FetchResult where
  docs : List Doc
  pages : Nat
  reason : Reason
  calls : Nat
  deriving Repr, DecidableEq

/-- The id value of a document when it is truthy, i.e. the values that
enter the existing_ids set built from all_docs in the source. -/
def truthyId (d : Doc) : Option String :=
  match d.id with
  | some s => if s = "" then none else some s
  | none => none

/-- Model of existing_ids: the truthy ids of the accumulated documents
(modelled as a list; only membership is ever used). -/
def existingIds (acc : List Doc) : List String :=
  acc.filterMap truthyId

/-- Membership test of the dedup filter: a document is kept unless its id
value is a member of the accumulated truthy-id set.  A missing id
(Python None) or an empty-string id is never a member. -/
def keepDoc (ids : List String) (d : Doc) : Bool :=
  match d.id with
  | some s => !(ids.contains s)
  | none => true

/-- Whether the first document of a page carries an id key, the
membership test the source applies to the head of each page (false on the
empty list, which the loops never pass here). -/
def firstHasId : List Doc → Bool
  | [] => false
  | d :: _ => d.id.isSome

/-- Page-accumulation step of `execute_bulk_export`
(src/module3_bulk_export.py lines 424-437): dedup is applied only when
all_docs is nonempty, docs is nonempty and the head of docs has an id key. -/
def appendPageBulk (acc docs : List Doc) : List Doc :=
  if !acc.isEmpty && !docs.isEmpty && firstHasId docs then
    acc ++ docs.filter (keepDoc (existingIds acc))
  else
    acc ++ docs

/-- Page-accumulation step of `execute_manual_export`
(src/module2_manual_export.py lines 317-333): dedup is applied only when
all_docs is nonempty and the head of docs has an id key; the source does
not re-test that docs is nonempty here (the loop guarantees it). -/
def appendPageManual (acc docs : List Doc) : List Doc :=
  if !acc.isEmpty && firstHasId docs then
    acc ++ docs.filter (keepDoc (existingIds acc))
  else
    acc ++ docs

/-- Main loop of the bulk engine, translating the source loop of
src/module3_bulk_export.py lines 396-482, which runs while page_count is
below max_iterations.  Here fuel is the number of loop iterations still
allowed, max_iterations minus page_count; exhausted fuel is
the fall-out-of-the-loop exit, reported as SAFETY_LIMIT.  Branch order is
exactly as in the source: API failure, empty docs, accumulate, preview cap,
absent cursor, stalled cursor, cursor update, completeness. -/
def bulkLoop (t : Transport) (isPreview : Bool) (total : Nat) :
    Nat → String → Nat → List Doc → Nat → FetchResult
  | 0, _, pageCount, acc, calls => ⟨acc, pageCount, .SAFETY_LIMIT, calls⟩
  | fuel + 1, cursor, pageCount, acc, calls =>
    match t (pageCount + 1) with
    | none => ⟨acc, pageCount + 1, .ERROR, calls + 1⟩
    | some page =>
      if page.docs.isEmpty then
        ⟨acc, pageCount + 1, .EMPTY_PAGE, calls + 1⟩
      else
        let acc2 := appendPageBulk acc page.docs
        if isPreview = true ∧ 100 ≤ acc2.length then
          ⟨acc2, pageCount + 1, .PREVIEW_LIMIT, calls + 1⟩
        else if page.nextCursorMark = "" then
          ⟨acc2, pageCount + 1, .NO_NEXT_CURSOR, calls + 1⟩
        else if page.nextCursorMark = cursor then
          ⟨acc2, pageCount + 1, .CURSOR_STALLED, calls + 1⟩
        else if total ≤ acc2.length then
          ⟨acc2, pageCount + 1, .COMPLETE, calls + 1⟩
        else
          bulkLoop t isPreview total fuel page.nextCursorMark (pageCount + 1) acc2 (calls + 1)

/-- Main loop of the manual engine, translating the source loop of
src/module2_manual_export.py lines 280-388.  Branch order is exactly as in
the source: API failure, empty docs, accumulate, absent cursor, stalled
cursor (with one extra diagnostic get_reviews call when the stall occurs
at page_count equal to 2 and the export rows parameter exceeds 10, lines
361-371), cursor update, completeness, preview cap. -/
def manualLoop (t : Transport) (isPreview : Bool) (total rows : Nat) :
    Nat → String → Nat → List Doc → Nat → FetchResult
  | 0, _, pageCount, acc, calls => ⟨acc, pageCount, .SAFETY_LIMIT, calls⟩
  | fuel + 1, cursor, pageCount, acc, calls =>
    match t (pageCount + 1) with
    | none => ⟨acc, pageCount + 1, .ERROR, calls + 1⟩
    | some page =>
      if page.docs.isEmpty then
        ⟨acc, pageCount + 1, .EMPTY_PAGE, calls + 1⟩
      else
        let acc2 := appendPageManual acc page.docs
        if page.nextCursorMark = "" then
          ⟨acc2, pageCount + 1, .NO_NEXT_CURSOR, calls + 1⟩
        else if page.nextCursorMark = cursor then
          let extra := if pageCount + 1 = 2 ∧ 10 < rows then 1 else 0
          ⟨acc2, pageCount + 1, .CURSOR_STALLED, calls + 1 + extra⟩
        else if total ≤ acc2.length then
          ⟨acc2, pageCount + 1, .COMPLETE, calls + 1⟩
        else if isPreview = true ∧ 50 ≤ acc2.length then
          ⟨acc2, pageCount + 1, .PREVIEW_LIMIT, calls + 1⟩
        else
          manualLoop t isPreview total rows fuel page.nextCursorMark (pageCount + 1) acc2 (calls + 1)

/-- Clamped page size of the bulk engine: min of rows_per_page and 100 in
preview mode, rows_per_page otherwise (src/module3_bulk_export.py line 360). -/
def bulkRows (rowsPerPage : Nat) (isPreview : Bool) : Nat :=
  if isPreview then min rowsPerPage 100 else rowsPerPage

/-- Clamped page size of the manual engine: min of rows_per_page and 50 in
preview mode, rows_per_page otherwise (src/module2_manual_export.py line 222). -/
def manualRows (rowsPerPage : Nat) (isPreview : Bool) : Nat :=
  if isPreview then min rowsPerPage 50 else rowsPerPage

/-- Safety bound of the bulk loop: 1000 in full mode, 10 in preview mode
(src/module3_bulk_export.py line 390). -/
def bulkMaxIterations (isPreview : Bool) : Nat :=
  if isPreview then 10 else 1000

/-- Safety bound of the manual loop: 20 in full mode, 10 in preview mode
(src/module2_manual_export.py line 274). -/
def manualMaxIterations (isPreview : Bool) : Nat :=
  if isPreview then 10 else 20

/-- Outcome of one invocation of an export entry point: the fetch result,
the value of the export_in_progress single-flight flag after the
invocation returns, and the session-state all_docs store after the
invocation (unchanged on the GUARD_BUSY and NO_DATA early returns). -/
structure ExportOutcome where
  result : FetchResult
  exportInProgress : Bool
  storedDocs : List Doc
  deriving Repr, DecidableEq

/-- Entry point of the bulk engine (src/module3_bulk_export.py lines
342-516): single-flight check, metrics call (metricsTotal none models a
falsy metrics response, read as 0), NO_DATA early return, pagination loop,
result storage; the finally block clears export_in_progress on every
non-busy path. -/
def execute_bulk_export (guard : Bool) (sessionDocs : List Doc) (t : Transport)
    (metricsTotal : Option Nat) (rowsPerPage : Nat) (isPreview : Bool) : ExportOutcome :=
  if guard then
    ⟨⟨[], 0, .GUARD_BUSY, 0⟩, true, sessionDocs⟩
  else
    let total := metricsTotal.getD 0
    if total = 0 then
      ⟨⟨[], 0, .NO_DATA, 0⟩, false, sessionDocs⟩
    else
      let r := bulkLoop t isPreview total (bulkMaxIterations isPreview) "*" 0 [] 0
      ⟨r, false, r.docs⟩

/-- Entry point of the manual engine (src/module2_manual_export.py lines
205-422): like the bulk entry point, but before the zero-total check the
source issues one unconditional diagnostic page-fetch probe, a get_reviews
call with rows 1 and the start cursor (lines 239-248), so the transport
call counter starts at 1. -/
def execute_manual_export (guard : Bool) (sessionDocs : List Doc) (t : Transport)
    (metricsTotal : Option Nat) (rowsPerPage : Nat) (isPreview : Bool) : ExportOutcome :=
  if guard then
    ⟨⟨[], 0, .GUARD_BUSY, 0⟩, true, sessionDocs⟩
  else
    let total := metricsTotal.getD 0
    if total = 0 then
      ⟨⟨[], 0, .NO_DATA, 1⟩, false, sessionDocs⟩
    else
      let r := manualLoop t isPreview total (manualRows rowsPerPage isPreview)
        (manualMaxIterations isPreview) "*" 0 [] 1
      ⟨r, false, r.docs⟩

/-- Documents delivered by the n-th transport response (empty on failure);
used to express what the accumulated output is drawn from. -/
def deliveredDocs (t : Transport) (k : Nat) : List Doc :=
  match t k with
  | some page => page.docs
  | none => []

/-- Concatenation of the documents delivered by transport calls 1..n, in
arrival order. -/
def joinedPages (t : Transport) : Nat → List Doc
  | 0 => []
  | m + 1 => joinedPages t m ++ deliveredDocs t (m + 1)

/-- The accumulated document list after feeding the documents of transport
calls 1..n through the bulk accumulation step, starting empty. -/
def accUpToBulk (t : Transport) : Nat → List Doc
  | 0 => []
  | m + 1 => appendPageBulk (accUpToBulk t m) (deliveredDocs t (m + 1))

/-- Uniqueness predicate of the spec: no two documents of the list share
the same non-empty (truthy) id. -/
def NoDupTruthy (l : List Doc) : Prop :=
  (l.filterMap truthyId).Nodup

instance (l : List Doc) : Decidable (NoDupTruthy l) := by
  unfold NoDupTruthy; infer_instance

/-- The two accumulation steps agree on every input: the extra nonemptiness
conjunct of the bulk step is redundant because firstHasId is false on the
empty page. -/
theorem appendPageManual_eq_bulk (acc docs : List Doc) :
    appendPageManual acc docs = appendPageBulk acc docs := by
  cases docs with
  | nil => simp [appendPageManual, appendPageBulk, firstHasId]
  | cons d ds => simp [appendPageManual, appendPageBulk]

/-- One accumulation step appends a sublist of the incoming page. -/
theorem appendPageBulk_sublist (acc docs : List Doc) :
    List.Sublist (appendPageBulk acc docs) (acc ++ docs) := by
  unfold appendPageBulk
  split
  · exact List.Sublist.append (List.Sublist.refl acc) (List.filter_sublist docs)
  · exact List.Sublist.refl _

/-- One accumulation step grows the accumulator by at most the page size. -/
theorem appendPageBulk_length_le (acc docs : List Doc) :
    (appendPageBulk acc docs).length ≤ acc.length + docs.length := by
  have h := (appendPageBulk_sublist acc docs).length_le
  simpa using h

/-- One accumulation step is the accumulator followed by a sublist of the
incoming page (accumulation never reorders nor drops old documents). -/
theorem appendPageBulk_eq_append (acc docs : List Doc) :
    ∃ kept, appendPageBulk acc docs = acc ++ kept ∧ List.Sublist kept docs := by
  unfold appendPageBulk
  split
  · exact ⟨_, rfl, List.filter_sublist docs⟩
  · exact ⟨docs, rfl, List.Sublist.refl docs⟩

/-- Every truthy id surviving the dedup filter is absent from the
accumulated truthy ids. -/
theorem truthyId_of_filter_not_mem (acc docs : List Doc) (s : String)
    (hs : s ∈ (docs.filter (keepDoc (existingIds acc))).filterMap truthyId) :
    s ∉ existingIds acc := by
  obtain ⟨d, hd, hds⟩ := List.mem_filterMap.mp hs
  have hk : keepDoc (existingIds acc) d = true := List.of_mem_filter hd
  cases h : d.id with
  | none => simp [truthyId, h] at hds
  | some sv =>
    simp only [truthyId, h] at hds
    simp only [keepDoc, h] at hk
    by_cases he : sv = ""
    · simp [he] at hds
    · rw [if_neg he] at hds
      cases hds
      intro hmem
      simp at hk
      exact hk hmem

/-- An accumulation step preserves the uniqueness invariant provided the
incoming page is internally duplicate-free and either the accumulator is
still empty or the head of the page carries an id key. -/
theorem appendPageBulk_nodupTruthy {acc docs : List Doc}
    (ha : NoDupTruthy acc) (hd : NoDupTruthy docs)
    (hcase : acc = [] ∨ firstHasId docs = true) :
    NoDupTruthy (appendPageBulk acc docs) := by
  unfold NoDupTruthy appendPageBulk
  split
  · rw [List.filterMap_append, List.nodup_append]
    refine ⟨ha, ?_, ?_⟩
    · exact List.Nodup.sublist (List.Sublist.filterMap truthyId (List.filter_sublist docs)) hd
    · intro s hs hs2
      exact truthyId_of_filter_not_mem acc docs s hs2 hs
  · rename_i hcond
    rcases hcase with hnil | hfirst
    · subst hnil
      simpa [NoDupTruthy] using hd
    · have hdocs : docs ≠ [] := by
        intro h
        rw [h] at hfirst
        simp [firstHasId] at hfirst
      have hacc : acc = [] := by
        by_contra hne
        apply hcond
        rw [hfirst]
        cases acc with
        | nil => exact absurd rfl hne
        | cons a as =>
          cases docs with
          | nil => exact absurd rfl hdocs
          | cons d ds => simp
      subst hacc
      simpa [NoDupTruthy] using hd

/-- The final page counter of the bulk loop never exceeds the starting
counter plus the remaining allowance (the while guard of the source). -/
theorem bulkLoop_pages_le (t : Transport) (p : Bool) (tot : Nat) :
    ∀ fuel cursor pc acc cal,
      (bulkLoop t p tot fuel cursor pc acc cal).pages ≤ pc + fuel := by
  intro fuel
  induction fuel with
  | zero =>
    intro cursor pc acc cal
    simp [bulkLoop]
  | succ n ih =>
    intro cursor pc acc cal
    simp only [bulkLoop]
    split
    · try dsimp only
      omega
    · try dsimp only
      split
      · try dsimp only
        omega
      · split
        · try dsimp only
          omega
        · split
          · try dsimp only
            omega
          · split
            · try dsimp only
              omega
            · split
              · try dsimp only
                omega
              · exact le_trans (ih _ _ _ _) (by omega)

/-- The final page counter of the manual loop never exceeds the starting
counter plus the remaining allowance (the while guard of the source). -/
theorem manualLoop_pages_le (t : Transport) (p : Bool) (tot rows : Nat) :
    ∀ fuel cursor pc acc cal,
      (manualLoop t p tot rows fuel cursor pc acc cal).pages ≤ pc + fuel := by
  intro fuel
  induction fuel with
  | zero =>
    intro cursor pc acc cal
    simp [manualLoop]
  | succ n ih =>
    intro cursor pc acc cal
    simp only [manualLoop]
    split
    · try dsimp only
      omega
    · try dsimp only
      split
      · try dsimp only
        omega
      · split
        · try dsimp only
          omega
        · split
          · try dsimp only
            omega
          · split
            · try dsimp only
              omega
            · split
              · try dsimp only
                omega
              · exact le_trans (ih _ _ _ _) (by omega)

/-- The bulk loop issues exactly one transport call per page fetched: the
call counter grows in lockstep with the page counter. -/
theorem bulkLoop_calls_eq (t : Transport) (p : Bool) (tot : Nat) :
    ∀ fuel cursor pc acc cal,
      (bulkLoop t p tot fuel cursor pc acc cal).calls + pc =
        (bulkLoop t p tot fuel cursor pc acc cal).pages + cal := by
  intro fuel
  induction fuel with
  | zero =>
    intro cursor pc acc cal
    simp [bulkLoop]
    omega
  | succ n ih =>
    intro cursor pc acc cal
    simp only [bulkLoop]
    split
    · try dsimp only
      omega
    · rename_i page heq
      try dsimp only
      split
      · try dsimp only
        omega
      · split
        · try dsimp only
          omega
        · split
          · try dsimp only
            omega
          · split
            · try dsimp only
              omega
            · split
              · try dsimp only
                omega
              · have h := ih page.nextCursorMark (pc + 1) (appendPageBulk acc page.docs) (cal + 1)
                omega

/-- Call accounting of the manual loop: one transport call per page, plus
exactly one extra diagnostic call in the single case where the cursor
stalls on page 2 while the export page size exceeds 10. -/
theorem manualLoop_calls_spec (t : Transport) (p : Bool) (tot rows : Nat) :
    ∀ fuel cursor pc acc cal,
      (manualLoop t p tot rows fuel cursor pc acc cal).calls + pc =
        (manualLoop t p tot rows fuel cursor pc acc cal).pages + cal ∨
      ((manualLoop t p tot rows fuel cursor pc acc cal).reason = .CURSOR_STALLED ∧
       (manualLoop t p tot rows fuel cursor pc acc cal).pages = 2 ∧ 10 < rows ∧
       (manualLoop t p tot rows fuel cursor pc acc cal).calls + pc =
         (manualLoop t p tot rows fuel cursor pc acc cal).pages + cal + 1) := by
  intro fuel
  induction fuel with
  | zero =>
    intro cursor pc acc cal
    left
    simp [manualLoop]
    omega
  | succ n ih =>
    intro cursor pc acc cal
    simp only [manualLoop]
    split
    · left
      try dsimp only
      omega
    · rename_i page heq
      try dsimp only
      split
      · left
        try dsimp only
        omega
      · split
        · left
          try dsimp only
          omega
        · split
          · split
            · rename_i hdiag
              right
              refine ⟨rfl, ?_, hdiag.2, ?_⟩
              · try dsimp only
                omega
              · try dsimp only
                omega
            · left
              try dsimp only
              omega
          · split
            · left
              try dsimp only
              omega
            · split
              · left
                try dsimp only
                omega
              · rcases ih page.nextCursorMark (pc + 1) (appendPageManual acc page.docs) (cal + 1) with
                  h | ⟨h1, h2, h3, h4⟩
                · left
                  omega
                · right
                  exact ⟨h1, h2, h3, by omega⟩

/-- Uniqueness invariant of the bulk loop: if every delivered page is
internally duplicate-free and starts with an id-carrying document, the
accumulated output never holds two documents with the same truthy id. -/
theorem bulkLoop_nodupTruthy (t : Transport) (p : Bool) (tot : Nat)
    (H : ∀ k page, t k = some page →
      NoDupTruthy page.docs ∧ (page.docs = [] ∨ firstHasId page.docs = true)) :
    ∀ fuel cursor pc acc cal, NoDupTruthy acc →
      NoDupTruthy ((bulkLoop t p tot fuel cursor pc acc cal).docs) := by
  intro fuel
  induction fuel with
  | zero =>
    intro cursor pc acc cal hacc
    simpa [bulkLoop] using hacc
  | succ n ih =>
    intro cursor pc acc cal hacc
    simp only [bulkLoop]
    split
    · try dsimp only
      exact hacc
    · rename_i page heq
      try dsimp only
      split
      · try dsimp only
        exact hacc
      · rename_i hne
        have hpage := H (pc + 1) page heq
        have hfirst : firstHasId page.docs = true := by
          rcases hpage.2 with hnil | hf
          · exact absurd (by rw [hnil]; rfl) hne
          · exact hf
        have hacc2 := appendPageBulk_nodupTruthy hacc hpage.1 (Or.inr hfirst)
        split
        · try dsimp only
          exact hacc2
        · split
          · try dsimp only
            exact hacc2
          · split
            · try dsimp only
              exact hacc2
            · split
              · try dsimp only
                exact hacc2
              · exact ih page.nextCursorMark (pc + 1) (appendPageBulk acc page.docs) (cal + 1) hacc2

/-- Uniqueness invariant of the manual loop, via the agreement of the two
accumulation steps. -/
theorem manualLoop_nodupTruthy (t : Transport) (p : Bool) (tot rows : Nat)
    (H : ∀ k page, t k = some page →
      NoDupTruthy page.docs ∧ (page.docs = [] ∨ firstHasId page.docs = true)) :
    ∀ fuel cursor pc acc cal, NoDupTruthy acc →
      NoDupTruthy ((manualLoop t p tot rows fuel cursor pc acc cal).docs) := by
  intro fuel
  induction fuel with
  | zero =>
    intro cursor pc acc cal hacc
    simpa [manualLoop] using hacc
  | succ n ih =>
    intro cursor pc acc cal hacc
    simp only [manualLoop]
    split
    · try dsimp only
      exact hacc
    · rename_i page heq
      try dsimp only
      split
      · try dsimp only
        exact hacc
      · rename_i hne
        have hpage := H (pc + 1) page heq
        have hfirst : firstHasId page.docs = true := by
          rcases hpage.2 with hnil | hf
          · exact absurd (by rw [hnil]; rfl) hne
          · exact hf
        have hacc2 : NoDupTruthy (appendPageManual acc page.docs) := by
          rw [appendPageManual_eq_bulk]
          exact appendPageBulk_nodupTruthy hacc hpage.1 (Or.inr hfirst)
        split
        · try dsimp only
          exact hacc2
        · split
          · try dsimp only
            exact hacc2
          · split
            · try dsimp only
              exact hacc2
            · split
              · try dsimp only
                exact hacc2
              · exact ih page.nextCursorMark (pc + 1) (appendPageManual acc page.docs) (cal + 1) hacc2

/-- Order invariant of the bulk loop: the accumulated output is an
order-preserving subsequence of the concatenation of the delivered pages
(first-seen order across pages, never reordered). -/
theorem bulkLoop_docs_sublist (t : Transport) (p : Bool) (tot : Nat) :
    ∀ fuel cursor pc acc cal,
      List.Sublist acc (joinedPages t pc) →
      List.Sublist ((bulkLoop t p tot fuel cursor pc acc cal).docs)
        (joinedPages t ((bulkLoop t p tot fuel cursor pc acc cal).pages)) := by
  intro fuel
  induction fuel with
  | zero =>
    intro cursor pc acc cal hsub
    simpa [bulkLoop] using hsub
  | succ n ih =>
    intro cursor pc acc cal hsub
    simp only [bulkLoop]
    split
    · rename_i heq
      try dsimp only
      rw [joinedPages]
      exact hsub.trans (List.sublist_append_left _ _)
    · rename_i page heq
      try dsimp only
      have hdel : deliveredDocs t (pc + 1) = page.docs := by
        simp [deliveredDocs, heq]
      have hsub2 : List.Sublist (appendPageBulk acc page.docs) (joinedPages t (pc + 1)) := by
        rw [joinedPages, hdel]
        exact (appendPageBulk_sublist acc page.docs).trans
          (List.Sublist.append hsub (List.Sublist.refl page.docs))
      split
      · try dsimp only
        rw [joinedPages]
        exact hsub.trans (List.sublist_append_left _ _)
      · split
        · try dsimp only
          exact hsub2
        · split
          · try dsimp only
            exact hsub2
          · split
            · try dsimp only
              exact hsub2
            · split
              · try dsimp only
                exact hsub2
              · exact ih page.nextCursorMark (pc + 1) (appendPageBulk acc page.docs) (cal + 1) hsub2

/-- Order invariant of the manual loop, via the agreement of the two
accumulation steps. -/
theorem manualLoop_docs_sublist (t : Transport) (p : Bool) (tot rows : Nat) :
    ∀ fuel cursor pc acc cal,
      List.Sublist acc (joinedPages t pc) →
      List.Sublist ((manualLoop t p tot rows fuel cursor pc acc cal).docs)
        (joinedPages t ((manualLoop t p tot rows fuel cursor pc acc cal).pages)) := by
  intro fuel
  induction fuel with
  | zero =>
    intro cursor pc acc cal hsub
    simpa [manualLoop] using hsub
  | succ n ih =>
    intro cursor pc acc cal hsub
    simp only [manualLoop]
    split
    · rename_i heq
      try dsimp only
      rw [joinedPages]
      exact hsub.trans (List.sublist_append_left _ _)
    · rename_i page heq
      try dsimp only
      have hdel : deliveredDocs t (pc + 1) = page.docs := by
        simp [deliveredDocs, heq]
      have hsub2 : List.Sublist (appendPageManual acc page.docs) (joinedPages t (pc + 1)) := by
        rw [joinedPages, hdel, appendPageManual_eq_bulk]
        exact (appendPageBulk_sublist acc page.docs).trans
          (List.Sublist.append hsub (List.Sublist.refl page.docs))
      split
      · try dsimp only
        rw [joinedPages]
        exact hsub.trans (List.sublist_append_left _ _)
      · split
        · try dsimp only
          exact hsub2
        · split
          · try dsimp only
            exact hsub2
          · split
            · try dsimp only
              exact hsub2
            · split
              · try dsimp only
                exact hsub2
              · exact ih page.nextCursorMark (pc + 1) (appendPageManual acc page.docs) (cal + 1) hsub2

/-- Error inversion for the bulk loop: when the run ends with ERROR, the
failing call is the final page, it returned no payload, and the returned
documents are exactly the accumulation of the earlier pages. -/
theorem bulkLoop_error_partial (t : Transport) (p : Bool) (tot : Nat) :
    ∀ fuel cursor pc acc cal, acc = accUpToBulk t pc →
      (bulkLoop t p tot fuel cursor pc acc cal).reason = .ERROR →
      (bulkLoop t p tot fuel cursor pc acc cal).docs =
        accUpToBulk t ((bulkLoop t p tot fuel cursor pc acc cal).pages - 1) ∧
      t ((bulkLoop t p tot fuel cursor pc acc cal).pages) = none := by
  intro fuel
  induction fuel with
  | zero =>
    intro cursor pc acc cal hacc hr
    simp [bulkLoop] at hr
  | succ n ih =>
    intro cursor pc acc cal hacc
    simp only [bulkLoop]
    split
    · rename_i heq
      intro hr
      try dsimp only
      refine ⟨by simpa using hacc, by simpa using heq⟩
    · rename_i page heq
      try dsimp only
      have hacc2 : appendPageBulk acc page.docs = accUpToBulk t (pc + 1) := by
        rw [accUpToBulk]
        have hdel : deliveredDocs t (pc + 1) = page.docs := by
          simp [deliveredDocs, heq]
        rw [hdel, hacc]
      split
      · intro hr
        simp at hr
      · split
        · intro hr
          simp at hr
        · split
          · intro hr
            simp at hr
          · split
            · intro hr
              simp at hr
            · split
              · intro hr
                simp at hr
              · exact ih page.nextCursorMark (pc + 1) (appendPageBulk acc page.docs) (cal + 1) hacc2

/-- Preview-cap analysis of the bulk loop: in preview mode against an
expected total of at least 100, the engine can never stop with reason
COMPLETE, and when every delivered page respects the clamped page size of
100, the accumulated output overshoots the 100-document preview cap by at
most 99 (at most 199 documents). -/
theorem bulkLoop_preview_bound (t : Transport) (tot : Nat)
    (Htot : 100 ≤ tot)
    (Hrows : ∀ k page, t k = some page → page.docs.length ≤ 100) :
    ∀ fuel cursor pc acc cal, acc.length < 100 →
      (bulkLoop t true tot fuel cursor pc acc cal).docs.length ≤ 199 ∧
      (bulkLoop t true tot fuel cursor pc acc cal).reason ≠ .COMPLETE := by
  intro fuel
  induction fuel with
  | zero =>
    intro cursor pc acc cal hlt
    refine ⟨?_, ?_⟩ <;> simp [bulkLoop]
    omega
  | succ n ih =>
    intro cursor pc acc cal hlt
    simp only [bulkLoop]
    split
    · try dsimp only
      exact ⟨by omega, by simp⟩
    · rename_i page heq
      try dsimp only
      have hlen : (appendPageBulk acc page.docs).length ≤ 199 := by
        have h1 := appendPageBulk_length_le acc page.docs
        have h2 := Hrows (pc + 1) page heq
        omega
      split
      · try dsimp only
        exact ⟨by omega, by simp⟩
      · split
        · try dsimp only
          exact ⟨hlen, by simp⟩
        · rename_i hnp
          have hlt2 : (appendPageBulk acc page.docs).length < 100 := by
            rcases Nat.lt_or_ge (appendPageBulk acc page.docs).length 100 with h | h
            · exact h
            · exact absurd ⟨by trivial, h⟩ hnp
          split
          · try dsimp only
            exact ⟨by omega, by simp⟩
          · split
            · try dsimp only
              exact ⟨by omega, by simp⟩
            · split
              · rename_i hcomp
                exact absurd hcomp (by omega)
              · exact ih page.nextCursorMark (pc + 1) (appendPageBulk acc page.docs) (cal + 1) hlt2

/-- Preview-cap analysis of the manual loop: in preview mode against an
expected total of at least 100, when every delivered page respects the
clamped page size of 50, the engine can never stop with reason COMPLETE
and the accumulated output stays at or below 99 documents. -/
theorem manualLoop_preview_bound (t : Transport) (tot rows : Nat)
    (Htot : 100 ≤ tot)
    (Hrows : ∀ k page, t k = some page → page.docs.length ≤ 50) :
    ∀ fuel cursor pc acc cal, acc.length < 50 →
      (manualLoop t true tot rows fuel cursor pc acc cal).docs.length ≤ 99 ∧
      (manualLoop t true tot rows fuel cursor pc acc cal).reason ≠ .COMPLETE := by
  intro fuel
  induction fuel with
  | zero =>
    intro cursor pc acc cal hlt
    refine ⟨?_, ?_⟩ <;> simp [manualLoop]
    omega
  | succ n ih =>
    intro cursor pc acc cal hlt
    simp only [manualLoop]
    split
    · try dsimp only
      exact ⟨by omega, by simp⟩
    · rename_i page heq
      try dsimp only
      have hlen : (appendPageManual acc page.docs).length ≤ 99 := by
        have h0 := appendPageManual_eq_bulk acc page.docs
        have h1 := appendPageBulk_length_le acc page.docs
        have h2 := Hrows (pc + 1) page heq
        rw [h0]
        omega
      split
      · try dsimp only
        exact ⟨by omega, by simp⟩
      · split
        · try dsimp only
          exact ⟨hlen, by simp⟩
        · split
          · try dsimp only
            exact ⟨hlen, by simp⟩
          · split
            · rename_i hcomp
              exact absurd hcomp (by omega)
            · split
              · try dsimp only
                exact ⟨hlen, by simp⟩
              · rename_i hnp
                have hlt2 : (appendPageManual acc page.docs).length < 50 := by
                  rcases Nat.lt_or_ge (appendPageManual acc page.docs).length 50 with h | h
                  · exact h
                  · exact absurd ⟨by trivial, h⟩ hnp
                exact ih page.nextCursorMark (pc + 1) (appendPageManual acc page.docs) (cal + 1) hlt2

/-- On an empty accumulator the bulk accumulation step keeps the page
verbatim (no dedup check at all). -/
theorem appendPageBulk_nil (docs : List Doc) : appendPageBulk [] docs = docs := by
  simp [appendPageBulk]

/-- On an empty accumulator the manual accumulation step keeps the page
verbatim (no dedup check at all). -/
theorem appendPageManual_nil (docs : List Doc) : appendPageManual [] docs = docs := by
  simp [appendPageManual]

/-- First-iteration analysis of the bulk loop: a nonempty first page whose
next cursor equals the start sentinel stops the run at page 1 with
CURSOR_STALLED, unless preview mode already hit the 100-document cap. -/
theorem bulkLoop_stall_first (t : Transport) (p : Bool) (tot : Nat)
    (fuel cal : Nat) (page : Page)
    (h1 : t 1 = some page) (h2 : page.docs ≠ []) (h3 : page.nextCursorMark = "*")
    (h4 : p = true → page.docs.length < 100) :
    bulkLoop t p tot (fuel + 1) "*" 0 [] cal =
      ⟨page.docs, 1, .CURSOR_STALLED, cal + 1⟩ := by
  have hni : page.docs.isEmpty = false := by
    cases hd : page.docs with
    | nil => exact absurd hd h2
    | cons a l => rfl
  have hp : ¬(p = true ∧ 100 ≤ (appendPageBulk [] page.docs).length) := by
    rw [appendPageBulk_nil]
    intro hc
    have := h4 hc.1
    omega
  simp [bulkLoop, h1, hni, h3, hp, appendPageBulk_nil]
  exact h4

/-- First-iteration analysis of the manual loop: a nonempty first page
whose next cursor equals the start sentinel stops the run at page 1 with
CURSOR_STALLED (the stall check precedes every cap check here, and the
stall diagnostic only fires on page 2). -/
theorem manualLoop_stall_first (t : Transport) (p : Bool) (tot rows : Nat)
    (fuel cal : Nat) (page : Page)
    (h1 : t 1 = some page) (h2 : page.docs ≠ []) (h3 : page.nextCursorMark = "*") :
    manualLoop t p tot rows (fuel + 1) "*" 0 [] cal =
      ⟨page.docs, 1, .CURSOR_STALLED, cal + 1⟩ := by
  have hni : page.docs.isEmpty = false := by
    cases hd : page.docs with
    | nil => exact absurd hd h2
    | cons a l => rfl
  simp [manualLoop, h1, hni, h3, appendPageManual_nil]

/-- Documents with pairwise-distinct decimal string ids a .. a+n-1. -/
def docsRange (a n : Nat) : List Doc :=
  (List.range' a n).map (fun i => ⟨some (Nat.repr i)⟩)

/-- Transport of the C1 scenario: pages of 100, 100 and 50 documents with
no duplicate ids; the third response carries an empty next cursor. -/
def tC1 : Transport := fun k =>
  if k = 1 then some ⟨docsRange 0 100, "c1"⟩
  else if k = 2 then some ⟨docsRange 100 100, "c2"⟩
  else if k = 3 then some ⟨docsRange 200 50, ""⟩
  else none

/-- Transport whose first page internally repeats one id and ends the
result set (empty next cursor). -/
def tDupPage1 : Transport := fun k =>
  if k = 1 then some ⟨[⟨some "a"⟩, ⟨some "a"⟩], ""⟩ else none

/-- Transport that always fails. -/
def tNone : Transport := fun _ => none

/-- Transport delivering one full preview page of 100 fresh documents
whose next cursor equals the start sentinel. -/
def tStallPreview : Transport := fun k =>
  if k = 1 then some ⟨docsRange 0 100, "*"⟩ else none

/-- Transport that repeats the page-1 cursor on page 2 (stall at page 2). -/
def tStall2 : Transport := fun k =>
  if k = 1 then some ⟨[⟨some "a"⟩], "c1"⟩
  else if k = 2 then some ⟨[⟨some "b"⟩], "c1"⟩
  else none

/-- Transport delivering 99 then 100 fresh documents (dishonest only about
the page boundary, never about the requested page size). -/
def tOvershoot : Transport := fun k =>
  if k = 1 then some ⟨docsRange 0 99, "c1"⟩
  else if k = 2 then some ⟨docsRange 99 100, "c2"⟩
  else none

/-- Transport failing at the second call. -/
def tErr2 : Transport := fun k =>
  if k = 1 then some ⟨[⟨some "a"⟩, ⟨some "b"⟩], "c1"⟩ else none

/-- Transport delivering one single-document page whose next cursor equals
the start sentinel. -/
def tStallOne : Transport := fun k =>
  if k = 1 then some ⟨[⟨some "a"⟩], "*"⟩ else none

/-- Transport whose second page starts with a document lacking an id key
and then repeats an already-seen id. -/
def tNoIdHead : Transport := fun k =>
  if k = 1 then some ⟨[⟨some "a"⟩], "c1"⟩
  else if k = 2 then some ⟨[⟨none⟩, ⟨some "a"⟩], ""⟩
  else none

/-- Transport whose second page repeats a fresh id twice while its head
does carry an id key (dedup active but per-page duplicates kept). -/
def tFreshDup : Transport := fun k =>
  if k = 1 then some ⟨[⟨some "a"⟩], "c1"⟩
  else if k = 2 then some ⟨[⟨some "b"⟩, ⟨some "b"⟩, ⟨some "a"⟩], ""⟩
  else none

/-- C2 counterexample: the claim that no returned document set ever holds
two documents with the same non-empty id fails on the code: a first page
that internally repeats the non-empty id a is appended without any
per-document check, so the returned collection holds the id twice. -/
theorem C2_counterexample :
    (execute_bulk_export false [] tDupPage1 (some 10) 100 false).result.docs =
      [⟨some "a"⟩, ⟨some "a"⟩] ∧
    ¬ NoDupTruthy (execute_bulk_export false [] tDupPage1 (some 10) 100 false).result.docs := by
  decide

/-- C2 (amended): for every run of either engine, if each delivered page
is internally free of repeated truthy ids and each nonempty page starts
with an id-carrying document, then the output never holds two documents
with the same non-empty id; and unconditionally on those hypotheses the
output is an order-preserving subsequence of the concatenation of the
delivered pages (first-seen order across pages). -/
theorem C2_unique_and_ordered (guard : Bool) (session : List Doc) (t : Transport)
    (mt : Option Nat) (rows : Nat) (preview : Bool)
    (H : ∀ k page, t k = some page →
      NoDupTruthy page.docs ∧ (page.docs = [] ∨ firstHasId page.docs = true)) :
    (NoDupTruthy (execute_bulk_export guard session t mt rows preview).result.docs ∧
     NoDupTruthy (execute_manual_export guard session t mt rows preview).result.docs) ∧
    (List.Sublist (execute_bulk_export guard session t mt rows preview).result.docs
       (joinedPages t (execute_bulk_export guard session t mt rows preview).result.pages) ∧
     List.Sublist (execute_manual_export guard session t mt rows preview).result.docs
       (joinedPages t (execute_manual_export guard session t mt rows preview).result.pages)) := by
  have hnil : NoDupTruthy ([] : List Doc) := by simp [NoDupTruthy]
  have hsubnil : List.Sublist ([] : List Doc) (joinedPages t 0) := by
    simp [joinedPages]
  refine ⟨⟨?_, ?_⟩, ?_, ?_⟩
  · unfold execute_bulk_export
    split
    · exact hnil
    · dsimp only
      split
      · exact hnil
      · exact bulkLoop_nodupTruthy t preview _ H _ "*" 0 [] 0 hnil
  · unfold execute_manual_export
    split
    · exact hnil
    · dsimp only
      split
      · exact hnil
      · exact manualLoop_nodupTruthy t preview _ _ H _ "*" 0 [] 1 hnil
  · unfold execute_bulk_export
    split
    · simp [joinedPages]
    · dsimp only
      split
      · simp [joinedPages]
      · exact bulkLoop_docs_sublist t preview _ _ "*" 0 [] 0 hsubnil
  · unfold execute_manual_export
    split
    · simp [joinedPages]
    · dsimp only
      split
      · simp [joinedPages]
      · exact manualLoop_docs_sublist t preview _ _ _ "*" 0 [] 1 hsubnil

/-- C2 witness: the amended theorem applied to the always-failing
transport, whose hypotheses hold vacuously. -/
theorem C2_unique_and_ordered_witness :
    (NoDupTruthy (execute_bulk_export false [] tNone (some 5) 100 false).result.docs ∧
     NoDupTruthy (execute_manual_export false [] tNone (some 5) 100 false).result.docs) ∧
    (List.Sublist (execute_bulk_export false [] tNone (some 5) 100 false).result.docs
       (joinedPages tNone (execute_bulk_export false [] tNone (some 5) 100 false).result.pages) ∧
     List.Sublist (execute_manual_export false [] tNone (some 5) 100 false).result.docs
       (joinedPages tNone (execute_manual_export false [] tNone (some 5) 100 false).result.pages)) :=
  C2_unique_and_ordered false [] tNone (some 5) 100 false
    (fun k page h => absurd h (by simp [tNone]))

/-- C3 (confirmed): for every run of either engine, under any transport
behaviour whatsoever, the number of pages fetched never exceeds the
max-iterations safety bound, which is 1000 for bulk full mode, 20 for
manual full mode and 10 for both preview modes; exhausting it is the
SAFETY_LIMIT exit, so the loop always terminates. -/
theorem C3_pages_bounded (guard : Bool) (session : List Doc) (t : Transport)
    (mt : Option Nat) (rows : Nat) (preview : Bool) :
    (execute_bulk_export guard session t mt rows preview).result.pages ≤
      bulkMaxIterations preview ∧
    (execute_manual_export guard session t mt rows preview).result.pages ≤
      manualMaxIterations preview ∧
    bulkMaxIterations false = 1000 ∧ manualMaxIterations false = 20 ∧
    bulkMaxIterations true = 10 ∧ manualMaxIterations true = 10 := by
  refine ⟨?_, ?_, rfl, rfl, rfl, rfl⟩
  · unfold execute_bulk_export
    split
    · exact Nat.zero_le _
    · dsimp only
      split
      · exact Nat.zero_le _
      · simpa using bulkLoop_pages_le t preview _ (bulkMaxIterations preview) "*" 0 [] 0
  · unfold execute_manual_export
    split
    · exact Nat.zero_le _
    · dsimp only
      split
      · exact Nat.zero_le _
      · simpa using manualLoop_pages_le t preview _ _ (manualMaxIterations preview) "*" 0 [] 1

/-- C4 counterexample: the manual engine does NOT make zero page-fetch
transport calls when the oracle reports zero documents: the unconditional
diagnostic probe (rows 1, start cursor) is issued before the zero check,
so a zero-total manual run still performs one page-fetch transport call. -/
theorem C4_counterexample :
    (execute_manual_export false [] tStall2 (some 0) 100 false).result.reason =
      Reason.NO_DATA ∧
    (execute_manual_export false [] tStall2 (some 0) 100 false).result.calls = 1 ∧
    (execute_manual_export false [] tStall2 (some 0) 100 false).result.calls ≠ 0 := by
  decide

/-- C4 (amended): when the Metrics Oracle reports a zero (or missing)
expected total, both engines return immediately with an empty result and
reason NO_DATA and run zero pagination-loop iterations; the bulk engine
issues zero page-fetch transport calls, while the manual engine has
already issued exactly one diagnostic probe call before the check. -/
theorem C4_no_data (session : List Doc) (t : Transport) (mt : Option Nat)
    (rows : Nat) (preview : Bool) (h : mt.getD 0 = 0) :
    execute_bulk_export false session t mt rows preview =
      ⟨⟨[], 0, .NO_DATA, 0⟩, false, session⟩ ∧
    execute_manual_export false session t mt rows preview =
      ⟨⟨[], 0, .NO_DATA, 1⟩, false, session⟩ := by
  unfold execute_bulk_export execute_manual_export
  simp [h]

/-- C4 witness: the amended theorem at a concrete zero-total run. -/
theorem C4_no_data_witness :
    execute_bulk_export false [] tNone (some 0) 100 false =
      ⟨⟨[], 0, .NO_DATA, 0⟩, false, []⟩ ∧
    execute_manual_export false [] tNone (some 0) 100 false =
      ⟨⟨[], 0, .NO_DATA, 1⟩, false, []⟩ :=
  C4_no_data [] tNone (some 0) 100 false (by decide)

/-- C5 counterexample: the claim that no network call follows a terminal
condition fails on the manual engine: with page size 100 and a cursor
stall detected on page 2 (a terminal condition), the code issues one more
diagnostic get_reviews call, so the run makes 4 transport calls (1 probe,
2 loop pages, 1 post-terminal diagnostic) instead of 3. -/
theorem C5_counterexample :
    (execute_manual_export false [] tStall2 (some 500) 100 false).result.pages = 2 ∧
    (execute_manual_export false [] tStall2 (some 500) 100 false).result.reason =
      Reason.CURSOR_STALLED ∧
    (execute_manual_export false [] tStall2 (some 500) 100 false).result.calls = 4 := by
  decide

/-- C5 (amended): once a terminal condition is reached no further
page-fetch transport call is made, with a single exception: the manual
engine issues one extra diagnostic call (with rows 5) when the cursor
stalls on page 2 while the clamped page size exceeds 10.  Concretely, a
bulk run makes exactly one call per page, and a manual run makes one call
per page plus its initial probe, plus one more exactly in the stall-at-
page-2 case. -/
theorem C5_calls_per_page (guard : Bool) (session : List Doc) (t : Transport)
    (mt : Option Nat) (rows : Nat) (preview : Bool) :
    (execute_bulk_export guard session t mt rows preview).result.calls =
      (execute_bulk_export guard session t mt rows preview).result.pages ∧
    ((execute_manual_export false session t mt rows preview).result.calls =
       (execute_manual_export false session t mt rows preview).result.pages + 1 ∨
     ((execute_manual_export false session t mt rows preview).result.reason =
        .CURSOR_STALLED ∧
      (execute_manual_export false session t mt rows preview).result.pages = 2 ∧
      10 < manualRows rows preview ∧
      (execute_manual_export false session t mt rows preview).result.calls =
        (execute_manual_export false session t mt rows preview).result.pages + 2)) := by
  constructor
  · unfold execute_bulk_export
    split
    · rfl
    · dsimp only
      split
      · rfl
      · dsimp only
        have h := bulkLoop_calls_eq t preview (mt.getD 0) (bulkMaxIterations preview) "*" 0 [] 0
        omega
  · unfold execute_manual_export
    simp only [Bool.false_eq_true, if_false]
    try dsimp only
    split
    · left
      rfl
    · dsimp only
      rcases manualLoop_calls_spec t preview (mt.getD 0) (manualRows rows preview)
        (manualMaxIterations preview) "*" 0 [] 1 with h | ⟨h1, h2, h3, h4⟩
      · left
        omega
      · right
        exact ⟨h1, h2, h3, by omega⟩

/-- C6 (confirmed): an export invoked while the single-flight guard is
held returns immediately with GUARD_BUSY, leaving the guard held and the
stored fetch state (the accumulated documents of the in-flight session)
untouched; and on every non-busy invocation, whatever path it takes
(NO_DATA early return, transport failure or normal completion), the guard
is clear when the call returns, mirroring the finally block. -/
theorem C6_guard_protocol (session : List Doc) (t : Transport) (mt : Option Nat)
    (rows : Nat) (preview : Bool) :
    execute_bulk_export true session t mt rows preview =
      ⟨⟨[], 0, .GUARD_BUSY, 0⟩, true, session⟩ ∧
    execute_manual_export true session t mt rows preview =
      ⟨⟨[], 0, .GUARD_BUSY, 0⟩, true, session⟩ ∧
    (execute_bulk_export false session t mt rows preview).exportInProgress = false ∧
    (execute_manual_export false session t mt rows preview).exportInProgress = false := by
  refine ⟨rfl, rfl, ?_, ?_⟩
  · unfold execute_bulk_export
    simp only [Bool.false_eq_true, if_false]
    try dsimp only
    split
    · rfl
    · rfl
  · unfold execute_manual_export
    simp only [Bool.false_eq_true, if_false]
    try dsimp only
    split
    · rfl
    · rfl

/-- C7 (confirmed): when a bulk run ends in the ERROR state, the failing
page was the final transport call (no retry of that page: exactly one call
per page), the call returned no payload, and the engine still returns and
stores the documents accumulated from the preceding pages. -/
theorem C7_error_partial (session : List Doc) (t : Transport) (total rows : Nat)
    (preview : Bool) (h0 : 0 < total)
    (herr : (execute_bulk_export false session t (some total) rows preview).result.reason =
      Reason.ERROR) :
    (execute_bulk_export false session t (some total) rows preview).result.docs =
      accUpToBulk t
        ((execute_bulk_export false session t (some total) rows preview).result.pages - 1) ∧
    t ((execute_bulk_export false session t (some total) rows preview).result.pages) = none ∧
    (execute_bulk_export false session t (some total) rows preview).storedDocs =
      (execute_bulk_export false session t (some total) rows preview).result.docs ∧
    (execute_bulk_export false session t (some total) rows preview).result.calls =
      (execute_bulk_export false session t (some total) rows preview).result.pages := by
  unfold execute_bulk_export at herr ⊢
  simp only [Bool.false_eq_true, if_false, Option.getD_some] at herr ⊢
  rw [if_neg (by omega)] at herr ⊢
  dsimp only at herr ⊢
  have h := bulkLoop_error_partial t preview total (bulkMaxIterations preview) "*" 0 [] 0 rfl herr
  have hc := bulkLoop_calls_eq t preview total (bulkMaxIterations preview) "*" 0 [] 0
  exact ⟨h.1, h.2, rfl, by omega⟩

/-- C7 witness: the theorem applied to a transport failing at its second
call, after a first page of two documents. -/
theorem C7_error_partial_witness :
    (execute_bulk_export false [] tErr2 (some 500) 100 false).result.docs =
      accUpToBulk tErr2
        ((execute_bulk_export false [] tErr2 (some 500) 100 false).result.pages - 1) ∧
    tErr2 ((execute_bulk_export false [] tErr2 (some 500) 100 false).result.pages) = none ∧
    (execute_bulk_export false [] tErr2 (some 500) 100 false).storedDocs =
      (execute_bulk_export false [] tErr2 (some 500) 100 false).result.docs ∧
    (execute_bulk_export false [] tErr2 (some 500) 100 false).result.calls =
      (execute_bulk_export false [] tErr2 (some 500) 100 false).result.pages :=
  C7_error_partial [] tErr2 500 100 false (by decide) (by decide)

/-- C8 (amended): if the first transport response is a nonempty page whose
next cursor equals the start sentinel, both engines stop after exactly one
page with reason CURSOR_STALLED, provided (for the bulk engine in preview
mode) the page stays below the 100-document preview cap, which is checked
before the cursor comparison there. -/
theorem C8_stall_page1 (session : List Doc) (t : Transport) (total rows : Nat)
    (preview : Bool) (page : Page) (h0 : 0 < total)
    (h1 : t 1 = some page) (h2 : page.docs ≠ []) (h3 : page.nextCursorMark = "*")
    (h4 : preview = true → page.docs.length < 100) :
    (execute_bulk_export false session t (some total) rows preview).result =
      ⟨page.docs, 1, .CURSOR_STALLED, 1⟩ ∧
    (execute_manual_export false session t (some total) rows preview).result =
      ⟨page.docs, 1, .CURSOR_STALLED, 2⟩ := by
  have hb : ∀ fuel, bulkLoop t preview total (fuel + 1) "*" 0 [] 0 =
      ⟨page.docs, 1, .CURSOR_STALLED, 1⟩ :=
    fun fuel => bulkLoop_stall_first t preview total fuel 0 page h1 h2 h3 h4
  have hm : ∀ fuel, manualLoop t preview total (manualRows rows preview) (fuel + 1) "*" 0 [] 1 =
      ⟨page.docs, 1, .CURSOR_STALLED, 2⟩ :=
    fun fuel => manualLoop_stall_first t preview total (manualRows rows preview) fuel 1 page h1 h2 h3
  constructor
  · unfold execute_bulk_export
    simp only [Bool.false_eq_true, if_false, Option.getD_some]
    rw [if_neg (by omega)]
    dsimp only
    cases preview with
    | false => exact hb 999
    | true => exact hb 9
  · unfold execute_manual_export
    simp only [Bool.false_eq_true, if_false, Option.getD_some]
    rw [if_neg (by omega)]
    dsimp only
    cases preview with
    | false => exact hm 19
    | true => exact hm 9

/-- C8 witness: the theorem applied to a single-document stalled first
page in preview mode. -/
theorem C8_stall_page1_witness :
    (execute_bulk_export false [] tStallOne (some 5) 100 true).result =
      ⟨[⟨some "a"⟩], 1, .CURSOR_STALLED, 1⟩ ∧
    (execute_manual_export false [] tStallOne (some 5) 100 true).result =
      ⟨[⟨some "a"⟩], 1, .CURSOR_STALLED, 2⟩ :=
  C8_stall_page1 [] tStallOne 5 100 true ⟨[⟨some "a"⟩], "*"⟩ (by decide) (by decide)
    (by decide) (by decide) (by decide)

/-- C9 (amended): for a preview fetch with requested page size 100 and
expected total 500, when every delivered page respects the clamped page
size (100 for bulk, 50 for manual), neither engine can ever stop with
reason COMPLETE, and the accumulated output is bounded by 199 documents
for the bulk engine (the 100-document preview cap can be overshot by up to
one page) and by 99 for the manual engine. -/
theorem C9_preview_caps (session : List Doc) (tb tm : Transport)
    (Hb : ∀ k page, tb k = some page → page.docs.length ≤ bulkRows 100 true)
    (Hm : ∀ k page, tm k = some page → page.docs.length ≤ manualRows 100 true) :
    ((execute_bulk_export false session tb (some 500) 100 true).result.docs.length ≤ 199 ∧
     (execute_bulk_export false session tb (some 500) 100 true).result.reason ≠
       Reason.COMPLETE) ∧
    ((execute_manual_export false session tm (some 500) 100 true).result.docs.length ≤ 99 ∧
     (execute_manual_export false session tm (some 500) 100 true).result.reason ≠
       Reason.COMPLETE) := by
  have Hb2 : ∀ k page, tb k = some page → page.docs.length ≤ 100 := by
    intro k page h
    simpa [bulkRows] using Hb k page h
  have Hm2 : ∀ k page, tm k = some page → page.docs.length ≤ 50 := by
    intro k page h
    simpa [manualRows] using Hm k page h
  constructor
  · unfold execute_bulk_export
    simp only [Bool.false_eq_true, if_false, Option.getD_some]
    rw [if_neg (by omega)]
    dsimp only
    exact bulkLoop_preview_bound tb 500 (by omega) Hb2 (bulkMaxIterations true) "*" 0 [] 0
      (by simp)
  · unfold execute_manual_export
    simp only [Bool.false_eq_true, if_false, Option.getD_some]
    rw [if_neg (by omega)]
    dsimp only
    exact manualLoop_preview_bound tm 500 (manualRows 100 true) (by omega) Hm2
      (manualMaxIterations true) "*" 0 [] 1 (by simp)

/-- C9 witness: the amended theorem applied to the always-failing
transport, whose page-size hypotheses hold vacuously. -/
theorem C9_preview_caps_witness :
    ((execute_bulk_export false [] tNone (some 500) 100 true).result.docs.length ≤ 199 ∧
     (execute_bulk_export false [] tNone (some 500) 100 true).result.reason ≠
       Reason.COMPLETE) ∧
    ((execute_manual_export false [] tNone (some 500) 100 true).result.docs.length ≤ 99 ∧
     (execute_manual_export false [] tNone (some 500) 100 true).result.reason ≠
       Reason.COMPLETE) :=
  C9_preview_caps [] tNone tNone
    (fun k page h => absurd h (by simp [tNone]))
    (fun k page h => absurd h (by simp [tNone]))

/-- C10 (confirmed): dedup applies to a page only when the accumulator is
already nonempty and the first document of the page carries an id key;
otherwise the whole page is appended with no per-document check.  In
particular duplicate ids inside page 1, inside a single later page (fresh
ids repeated within the page), and on a page whose head lacks an id are
all retained, as the three concrete runs show. -/
theorem C10_dedup_condition :
    (∀ docs : List Doc, appendPageBulk [] docs = docs ∧ appendPageManual [] docs = docs) ∧
    (∀ acc docs : List Doc, firstHasId docs = false →
       appendPageBulk acc docs = acc ++ docs ∧ appendPageManual acc docs = acc ++ docs) ∧
    (∀ acc docs : List Doc, acc ≠ [] → firstHasId docs = true →
       appendPageBulk acc docs = acc ++ docs.filter (keepDoc (existingIds acc)) ∧
       appendPageManual acc docs = acc ++ docs.filter (keepDoc (existingIds acc))) ∧
    (execute_bulk_export false [] tDupPage1 (some 10) 100 false).result.docs =
      [⟨some "a"⟩, ⟨some "a"⟩] ∧
    (execute_bulk_export false [] tNoIdHead (some 10) 100 false).result.docs =
      [⟨some "a"⟩, ⟨none⟩, ⟨some "a"⟩] ∧
    (execute_bulk_export false [] tFreshDup (some 10) 100 false).result.docs =
      [⟨some "a"⟩, ⟨some "b"⟩, ⟨some "b"⟩] := by
  refine ⟨fun docs => ⟨appendPageBulk_nil docs, appendPageManual_nil docs⟩,
    ?_, ?_, by decide, by decide, by decide⟩
  · intro acc docs h
    constructor
    · unfold appendPageBulk
      rw [h]
      simp
    · unfold appendPageManual
      rw [h]
      simp
  · intro acc docs hacc hfirst
    have hd : docs ≠ [] := by
      intro hnil
      rw [hnil] at hfirst
      simp [firstHasId] at hfirst
    have hcond : (!acc.isEmpty && !docs.isEmpty && firstHasId docs) = true := by
      cases acc with
      | nil => exact absurd rfl hacc
      | cons a as =>
        cases docs with
        | nil => exact absurd rfl hd
        | cons d ds => simp [hfirst]
    have hcond2 : (!acc.isEmpty && firstHasId docs) = true := by
      cases acc with
      | nil => exact absurd rfl hacc
      | cons a as => simp [hfirst]
    constructor
    · unfold appendPageBulk
      rw [if_pos hcond]
    · unfold appendPageManual
      rw [if_pos hcond2]

/-- C10 witness: the conditional clauses of the theorem applied at
concrete inputs (a page headed by an id-less document is appended
verbatim even though it repeats an accumulated id; a fresh-id page is
filtered only against the accumulated ids). -/
theorem C10_dedup_condition_witness :
    appendPageBulk [⟨some "a"⟩] [⟨none⟩, ⟨some "a"⟩] =
      [⟨some "a"⟩] ++ [⟨none⟩, ⟨some "a"⟩] ∧
    appendPageBulk [⟨some "a"⟩] [⟨some "b"⟩] =
      [⟨some "a"⟩] ++ List.filter (keepDoc (existingIds [⟨some "a"⟩])) [⟨some "b"⟩] :=
  ⟨(C10_dedup_condition.2.1 [⟨some "a"⟩] [⟨none⟩, ⟨some "a"⟩] (by decide)).1,
   (C10_dedup_condition.2.2.1 [⟨some "a"⟩] [⟨some "b"⟩] (by decide) (by decide)).1⟩

set_option maxRecDepth 40000 in
set_option maxHeartbeats 2000000 in
/-- C1 counterexample: in the specified 250-document scenario the engine
does return all 250 documents in 3 pages, but the run reason is
NO_NEXT_CURSOR rather than COMPLETE: the source tests the absent-cursor
condition before the completeness condition, so the claimed precedence of
the completeness condition fails. -/
theorem C1_counterexample :
    (execute_bulk_export false [] tC1 (some 250) 100 false).result.docs.length = 250 ∧
    (execute_bulk_export false [] tC1 (some 250) 100 false).result.pages = 3 ∧
    (execute_bulk_export false [] tC1 (some 250) 100 false).result.reason ≠
      Reason.COMPLETE := by
  decide

set_option maxRecDepth 40000 in
set_option maxHeartbeats 2000000 in
/-- C1 (amended): with expectedTotal 250 and pages of 100, 100 and 50
fresh documents where the third response carries an empty next cursor,
both engines return all 250 documents with pagesFetched 3 and terminate
with reason NO_NEXT_CURSOR: the absent-cursor condition is evaluated
before the completeness condition in both source loops. -/
theorem C1_complete_scenario :
    (execute_bulk_export false [] tC1 (some 250) 100 false).result.docs.length = 250 ∧
    (execute_bulk_export false [] tC1 (some 250) 100 false).result.pages = 3 ∧
    (execute_bulk_export false [] tC1 (some 250) 100 false).result.reason =
      Reason.NO_NEXT_CURSOR ∧
    (execute_manual_export false [] tC1 (some 250) 100 false).result.docs.length = 250 ∧
    (execute_manual_export false [] tC1 (some 250) 100 false).result.pages = 3 ∧
    (execute_manual_export false [] tC1 (some 250) 100 false).result.reason =
      Reason.NO_NEXT_CURSOR := by
  decide

set_option maxRecDepth 40000 in
set_option maxHeartbeats 2000000 in
/-- C8 counterexample: a first page of 100 fresh documents whose next
cursor equals the start sentinel stops a bulk preview run after exactly
one page, but with reason PREVIEW_LIMIT, not CURSOR_STALLED: the bulk loop
checks the preview cap before comparing cursors. -/
theorem C8_counterexample :
    (execute_bulk_export false [] tStallPreview (some 500) 100 true).result.pages = 1 ∧
    (execute_bulk_export false [] tStallPreview (some 500) 100 true).result.reason =
      Reason.PREVIEW_LIMIT ∧
    (execute_bulk_export false [] tStallPreview (some 500) 100 true).result.reason ≠
      Reason.CURSOR_STALLED := by
  decide

set_option maxRecDepth 40000 in
set_option maxHeartbeats 2000000 in
/-- C9 counterexample: a bulk preview run with page size 100 and expected
total 500 can stop with 199 accumulated documents (a 99-document page
followed by a 100-document page), refuting the claimed 100-document bound
even though the reason is PREVIEW_LIMIT. -/
theorem C9_counterexample :
    (execute_bulk_export false [] tOvershoot (some 500) 100 true).result.docs.length = 199 ∧
    (execute_bulk_export false [] tOvershoot (some 500) 100 true).result.reason =
      Reason.PREVIEW_LIMIT ∧
    ¬ (execute_bulk_export false [] tOvershoot (some 500) 100 true).result.docs.length ≤ 100 := by
  decide

end ApiExplorer
